import Mathlib

/-!
A shallow embedding of the mindflow CLI (src/mindflow/main.py) together with
spec-modelled definitions of its four external collaborator functions, whose
modules are imported by main.py but are not part of the given sources:
`get_response` (mindflow/requests/response.py), `set_token`
(mindflow/utils/token.py), `generate_diff_prompt` (mindflow/prompt_generator.py)
and `QueryRequestHandler` (mindflow/requests/query.py).

One process invocation is modelled as a pure function from an environment
(the persisted token store plus the external collaborators: the completion
API, git diff, and the reference resolver) and the argument vector
sys.argv[1:] to an `Outcome` recording the exit status, standard output and
error, the calls made to the Response Client and to the token store, the
network requests issued, and the resulting token-store state.
-/

namespace Mindflow

/-- How the process terminated: fell off the end of main (exit code 0),
called sys.exit or was exited by argparse with the given code, or died on an
uncaught Python exception (the interpreter then exits non-zero with a
traceback, not with the usage text). -/
inductive ExitStatus where
  | success
  | exited (code : Nat)
  | uncaught (exn : String)
  deriving DecidableEq, Repr

/-- The token store state as seen across invocations: `none` is Unset (no
auth command ever ran); `some v` is Set with stored value `v`, where `v`
itself is an `Option String` because main.py may pass Python None (the auth
token argument has a question-mark nargs and defaults to None). -/
abbrev StoreState := Option (Option String)

/-- The external world a single invocation runs against: the persisted token
store, the remote completion API (prompt to response text), the git diff
collaborator (pass-through arguments to captured diff text) and the
reference resolver (reference string to resolved text content). -/
structure Env where
  tokenStore : StoreState
  api : String → String
  gitDiff : List String → String
  resolve : String → String

/-- Everything observable about one invocation: exit status, lines printed
to stdout and stderr, the prompts passed to the Response Client
(get_response), the prompts for which a network request to the remote API
was actually issued, the values passed to set_token, the argument lists
handed to generate_diff_prompt, and the token-store state afterwards. -/
structure Outcome where
  exit : ExitStatus
  stdout : List String
  stderr : List String
  getResponseCalls : List String
  apiCalls : List String
  setTokenCalls : List (Option String)
  diffPromptArgs : List (List String)
  tokenStore : StoreState
  deriving DecidableEq, Repr

/-- The outcome of an invocation that did nothing yet: success, nothing
printed, no calls, the store untouched. -/
def baseOutcome (env : Env) : Outcome :=
  { exit := ExitStatus.success
  , stdout := []
  , stderr := []
  , getResponseCalls := []
  , apiCalls := []
  , setTokenCalls := []
  , diffPromptArgs := []
  , tokenStore := env.tokenStore }

/-- Errors of the Response Client named by the spec taxonomy (section 7). -/
inductive MfError where
  | emptyPromptError
  | authenticationError
  deriving DecidableEq, Repr

/-- The Python exception name carried by an uncaught Response Client error. -/
def MfError.pyName : MfError → String
  | MfError.emptyPromptError => "EmptyPromptError"
  | MfError.authenticationError => "AuthenticationError"

/-- What one call to the Response Client did: its result, and the prompts it
actually sent over the network (empty list when no request was issued). -/
structure GRCall where
  result : Except MfError String
  networkPrompts : List String

def emptyS : String := ""

/-- Modelled from the spec: `get_response` — mindflow/requests/response.py is
not under src/. Section 4.4: the client rejects an empty prompt with
EmptyPromptError as a defensive check before any network call; it fails with
AuthenticationError when no usable token is stored; otherwise it issues
exactly one synchronous request carrying the prompt and returns the text of
the completion. A store that was written with Python None is treated as not
holding a usable credential, so no request is issued for it either (the spec
does not pin this corner down; no theorem below depends on it). -/
def get_response (store : StoreState) (api : String → String) (prompt : String) : GRCall :=
  if prompt = emptyS then
    { result := Except.error MfError.emptyPromptError, networkPrompts := [] }
  else
    match store with
    | some (some _) => { result := Except.ok (api prompt), networkPrompts := [prompt] }
    | _ => { result := Except.error MfError.authenticationError, networkPrompts := [] }

/-- Modelled from the spec: `set_token` — mindflow/utils/token.py is not
under src/. Section 4.5: persists the given value to local configuration,
overwriting any previous value. -/
def set_token (_store : StoreState) (tok : Option String) : StoreState :=
  some tok

/-- Modelled from the spec: `generate_diff_prompt` — mindflow/prompt_generator.py
is not under src/. Section 4.2: runs the version-control diff with the
pass-through arguments, captures its output, and wraps it in a fixed
instructional template asking for a summary of the changes; an empty diff
takes an explicit no-changes branch instead of sending the bare diff. -/
def generate_diff_prompt (gitDiff : List String → String) (diffargs : List String) : String :=
  let d := gitDiff diffargs
  if d = emptyS then "Summarize the changes in this git diff: there are no changes."
  else "Summarize the changes in this git diff:\n" ++ d

/-- Modelled from the spec: the reference corpus built by the Query Reference
Resolver (section 4.3) — the resolved content of each reference, tagged with
the originating reference name, concatenated in list order. Resolution of a
single reference is the external collaborator `resolve`. -/
def corpus (resolve : String → String) (refs : List String) : String :=
  String.join (refs.map (fun r => r ++ ":\n" ++ resolve r ++ "\n"))

/-- Modelled from the spec: the combined prompt of the query path (section
4.3), of the form user query plus reference corpus. -/
def buildQueryPrompt (resolve : String → String) (q : String) (refs : List String) : String :=
  q ++ "\n" ++ corpus resolve refs

def dashChar : Char := '-'

/-- Whether a command-line token looks like an option to argparse: its first
character is the dash prefix character. -/
def startsWithDash (s : String) : Bool :=
  match s.data with
  | [] => false
  | c :: _ => c = dashChar

def sShort : String := "-s"
def sLong : String := "--skip-response"
def tShort : String := "-t"
def tLong : String := "--skip-clipboard"

/-- The argparse model for the flag set shared by ask, diff and query
(_add_ask_args, _add_diff_args, _add_reference_args): every subcommand
parser declares the short and long skip-response and skip-clipboard
spellings as store_true flags. A token that does not begin with a dash is a positional (returned in
order); a dash-initial token other than the four flag spellings makes
argparse report an error and exit (returned as `none`). Argparse corners
that no claim exercises — the lone dash token, prefix abbreviation of long
flags, -h, and interleaving positionals between flags for the list-valued
diff positional — are not modelled; every theorem below restricts its
inputs to where this scan and argparse agree. -/
def scanSkipFlags : List String → Option (List String × Bool × Bool)
  | [] => some ([], false, false)
  | tok :: rest =>
    match scanSkipFlags rest with
    | none => none
    | some (pos, s, t) =>
      if startsWithDash tok then
        if tok = sShort ∨ tok = sLong then some (pos, true, t)
        else if tok = tShort ∨ tok = tLong then some (pos, s, true)
        else none
      else some (tok :: pos, s, t)

/-- Parsed arguments of the ask subcommand (_add_ask_args): one required
positional prompt plus the two skip flags. -/
structure AskArgs where
  prompt : String
  skip_response : Bool
  skip_clipboard : Bool
  deriving DecidableEq, Repr

/-- parse_args for ask: exactly one positional (the prompt), else argparse
errors out. -/
def parseAskArgs (argv2 : List String) : Option AskArgs :=
  match scanSkipFlags argv2 with
  | some ([p], s, t) => some { prompt := p, skip_response := s, skip_clipboard := t }
  | _ => none

/-- Parsed arguments of the diff subcommand (_add_diff_args): any number of
pass-through positionals plus the two skip flags. -/
structure DiffArgs where
  diffargs : List String
  skip_response : Bool
  skip_clipboard : Bool
  deriving DecidableEq, Repr

/-- parse_args for diff: the positionals, in order, are the pass-through
git-diff arguments (a star nargs accepts zero or more). -/
def parseDiffArgs (argv2 : List String) : Option DiffArgs :=
  match scanSkipFlags argv2 with
  | some (pos, s, t) => some { diffargs := pos, skip_response := s, skip_clipboard := t }
  | none => none

/-- Parsed arguments of the query subcommand (_add_reference_args): a
required query positional, then one or more references, plus the two skip
flags. -/
structure QueryArgs where
  query : String
  references : List String
  skip_response : Bool
  skip_clipboard : Bool
  deriving DecidableEq, Repr

/-- parse_args for query: at least two positionals (query, then a plus
nargs list of references), else argparse errors out. -/
def parseQueryArgs (argv2 : List String) : Option QueryArgs :=
  match scanSkipFlags argv2 with
  | some (q :: r :: rs, s, t) =>
    some { query := q, references := r :: rs, skip_response := s, skip_clipboard := t }
  | _ => none

/-- The argparse model for the auth subcommand (_add_auth_args): no optional
flags are declared, so every dash-initial token is an error; positionals are
collected in order. -/
def scanAuthArgs : List String → Option (List String)
  | [] => some []
  | tok :: rest =>
    match scanAuthArgs rest with
    | none => none
    | some pos => if startsWithDash tok then none else some (tok :: pos)

/-- parse_args for auth: one optional positional token (question-mark nargs),
defaulting to Python None when absent; two or more positionals are an
argparse error. -/
def parseAuthArgs (argv2 : List String) : Option (Option String) :=
  match scanAuthArgs argv2 with
  | some [] => some none
  | some [t] => some (some t)
  | _ => none

/-- An argparse failure inside a subcommand parser: usage and the error
message go to stderr and the process exits with code 2; no handler code
runs. -/
def argparseErrorOutcome (env : Env) : Outcome :=
  { baseOutcome env with
      exit := ExitStatus.exited 2
    , stderr := ["argparse: usage and error message"] }

/-- The shared tail of ask, diff and query in main.py: response =
get_response(prompt) followed by print(response). A Response Client error is
uncaught in main.py, so it terminates the invocation with a traceback. -/
def clientStep (env : Env) (prompt : String) : Outcome :=
  let gr := get_response env.tokenStore env.api prompt
  match gr.result with
  | Except.ok r =>
    { baseOutcome env with
        stdout := [r]
      , getResponseCalls := [prompt]
      , apiCalls := gr.networkPrompts }
  | Except.error e =>
    { baseOutcome env with
        exit := ExitStatus.uncaught e.pyName
      , getResponseCalls := [prompt]
      , apiCalls := gr.networkPrompts }

/-- MindFlow.ask (main.py lines 148 to 158): parse the prompt and the skip
flags from sys.argv[2:], then unconditionally call
get_response(args.prompt) and print the response. Exactly as in the source,
the parsed skip_response and skip_clipboard values are never read. -/
def MindFlow.ask (env : Env) (argv2 : List String) : Outcome :=
  match parseAskArgs argv2 with
  | none => argparseErrorOutcome env
  | some a => clientStep env a.prompt

/-- MindFlow.diff (main.py lines 160 to 171): parse the pass-through
arguments and the skip flags from sys.argv[2:], build the prompt with
generate_diff_prompt, then unconditionally call get_response(prompt) and
print the response. As in the source, the skip flags are never read. -/
def MindFlow.diff (env : Env) (argv2 : List String) : Outcome :=
  match parseDiffArgs argv2 with
  | none => argparseErrorOutcome env
  | some a =>
    let prompt := generate_diff_prompt env.gitDiff a.diffargs
    { clientStep env prompt with diffPromptArgs := [a.diffargs] }

/-- MindFlow.auth (main.py lines 137 to 146): parse the optional token from
sys.argv[2:] and call set_token(args.token); nothing is printed. -/
def MindFlow.auth (env : Env) (argv2 : List String) : Outcome :=
  match parseAuthArgs argv2 with
  | none => argparseErrorOutcome env
  | some tok =>
    { baseOutcome env with
        setTokenCalls := [tok]
      , tokenStore := set_token env.tokenStore tok }

/-- MindFlow.query (main.py lines 173 to 183): parse the query string and
the references from sys.argv[2:], run
QueryRequestHandler(args.query, args.references).query() and print the
result. The handler body (mindflow/requests/query.py) is not under src/; it
is modelled from the spec as building the combined query prompt and sending
it through the Response Client (sections 2 and 4.3). The parsed skip flags
are, as in the source, never read. -/
def MindFlow.query (env : Env) (argv2 : List String) : Outcome :=
  match parseQueryArgs argv2 with
  | none => argparseErrorOutcome env
  | some a => clientStep env (buildQueryPrompt env.resolve a.query a.references)

/-- MindFlow.q (main.py lines 185 to 187): the alias — its body is
`return self.query()`, which re-parses the same sys.argv[2:]. -/
def MindFlow.q (env : Env) (argv2 : List String) : Outcome :=
  MindFlow.query env argv2

/-- The subcommand names that MindFlow defines handler methods for. -/
def handlerNames : List String :=
  [r"auth", r"ask", r"diff", r"query", r"q"]

/-- The attributes every MindFlow instance has besides the five handlers:
the standard attributes inherited from the Python object class, plus the
class docstring machinery; hasattr(self, name) is true for each of these.
The list is that of dir on a plain object (including the getstate attribute
present from Python 3.11 on). -/
def pythonObjectAttrs : List String :=
  [r"__class__", r"__delattr__", r"__dict__", r"__dir__", r"__doc__",
   r"__eq__", r"__format__", r"__ge__", r"__getattribute__", r"__getstate__",
   r"__gt__", r"__hash__", r"__init__", r"__init_subclass__", r"__le__",
   r"__lt__", r"__module__", r"__ne__", r"__new__", r"__reduce__",
   r"__reduce_ex__", r"__repr__", r"__setattr__", r"__sizeof__", r"__str__",
   r"__subclasshook__", r"__weakref__"]

/-- The object attributes that are callable with no further argument and
whose return value line 135 simply discards, so the invocation falls
through and exits 0. -/
def zeroArgCallableAttrs : List String :=
  [r"__dir__", r"__getstate__", r"__hash__", r"__init_subclass__",
   r"__reduce__", r"__repr__", r"__sizeof__", r"__str__", r"__subclasshook__"]

/-- Dispatching getattr(self, name)() for a non-handler attribute (line
135): several are zero-argument callables on the instance whose result is
discarded, so the run succeeds silently; calling the constructor attributes
re-runs MindFlow() on the same argv and recurses until RecursionError; every
other such attribute is either not callable or needs more arguments, raising
TypeError. None of these paths prints the usage text, and none touches the
store or the network. -/
def dunderOutcome (env : Env) (s : String) : Outcome :=
  if s ∈ zeroArgCallableAttrs then baseOutcome env
  else if s = r"__init__" ∨ s = r"__class__" then
    { baseOutcome env with exit := ExitStatus.uncaught (r"RecursionError") }
  else
    { baseOutcome env with exit := ExitStatus.uncaught (r"TypeError") }

/-- The message printed by the unrecognized-command branch (line 130). -/
def unrecognizedMsg : String := "Unrecognized command"

/-- The usage text MF_USAGE printed by parser.print_help in the
unrecognized-command branch; print_help output is abbreviated to this, its
usage component. -/
def MF_USAGE : String :=
  "mf <command> [<args>]\nThe commands available in this CLI are:\ndiff  query  auth"

def helpShort : String := "-h"
def helpLong : String := "--help"
def dashTok : String := "-"

/-- The top-level parser of MindFlow.__init__ (lines 119 to 132): it parses
only sys.argv[1:2], a single required positional named command. With no
argument at all argparse reports the missing required argument and exits
with code 2. A help flag prints help and exits 0; any other dash-initial
token except the bare dash is an argparse error, exit code 2; the bare dash
is not option-like to argparse and is assigned to the command positional. -/
def parseCommand : List String → Except Nat String
  | [] => Except.error 2
  | c :: _ =>
    if c = helpShort ∨ c = helpLong then Except.error 0
    else if startsWithDash c ∧ ¬ c = dashTok then Except.error 2
    else Except.ok c

/-- Lines 134 to 135: the dispatch-by-attribute-name to the handler method
whose name equals the command. Within handlerNames the final case is q. -/
def dispatchHandler (env : Env) (c : String) (rest : List String) : Outcome :=
  if c = r"auth" then MindFlow.auth env rest
  else if c = r"ask" then MindFlow.ask env rest
  else if c = r"diff" then MindFlow.diff env rest
  else if c = r"query" then MindFlow.query env rest
  else MindFlow.q env rest

/-- One full invocation of the CLI: MindFlow.__init__ on sys.argv[1:]. The
top parser reads argv[1:2]; an unknown command that is nevertheless an
attribute of the instance passes the hasattr test of line 129 and is
dispatched; only a name that is no attribute at all reaches the
unrecognized-command branch, which prints the message and the usage text to
stdout and exits 1. -/
def mindflow (env : Env) (argv : List String) : Outcome :=
  match parseCommand (argv.take 1) with
  | Except.error 0 =>
    { baseOutcome env with exit := ExitStatus.exited 0, stdout := [MF_USAGE] }
  | Except.error code =>
    { baseOutcome env with
        exit := ExitStatus.exited code
      , stderr := ["argparse: usage and error message"] }
  | Except.ok c =>
    if c ∈ handlerNames then dispatchHandler env c (argv.drop 1)
    else if c ∈ pythonObjectAttrs then dunderOutcome env c
    else
      { baseOutcome env with
          exit := ExitStatus.exited 1
        , stdout := [unrecognizedMsg, MF_USAGE] }

/-- Threading the persisted token store through a sequence of process
invocations: each run starts from the store state the previous run left
behind; everything else in the environment is per-run. -/
def runSeq (env : Env) : List (List String) → StoreState
  | [] => env.tokenStore
  | argv :: rest =>
    runSeq { env with tokenStore := (mindflow env argv).tokenStore } rest

/-- A concrete environment used by the closed theorems below: a token is
stored, the API echoes the prompt behind a marker, git diff produces fixed
output, references resolve to themselves. -/
def demoEnv : Env :=
  { tokenStore := some (some (r"demo-token"))
  , api := fun p => (r"response to: ") ++ p
  , gitDiff := fun _ => r"diff --git a/f b/f"
  , resolve := fun r => r }

/-! Helper lemmas shared by the claim theorems. -/

/-- Appending to a non-empty string cannot give the empty string. -/
theorem append_ne_emptyS (s t : String) (hs : ¬ s = emptyS) : ¬ (s ++ t) = emptyS := by
  cases s with
  | mk ls =>
    cases t with
    | mk lt =>
      intro h
      have hd : ls ++ lt = ([] : List Char) := by
        have := String.data_append (String.mk ls) (String.mk lt)
        rw [h] at this
        exact this.symm
      refine hs ?_
      rw [(List.append_eq_nil.mp hd).1]
      decide

/-- The diff prompt is never the empty string: both template branches carry
fixed instructional text. -/
theorem generate_diff_prompt_ne_emptyS (g : List String → String) (a : List String) :
    ¬ generate_diff_prompt g a = emptyS := by
  have hg : generate_diff_prompt g a =
      if g a = emptyS then "Summarize the changes in this git diff: there are no changes."
      else "Summarize the changes in this git diff:\n" ++ g a := rfl
  rw [hg]
  by_cases hd : g a = emptyS
  · rw [if_pos hd]
    decide
  · rw [if_neg hd]
    exact append_ne_emptyS _ _ (by decide)

/-- Any prompt the Response Client actually sent over the network is
non-empty: the emptiness guard precedes the request. -/
theorem get_response_network_ne_emptyS (store : StoreState) (api : String → String)
    (p q : String) (h : q ∈ (get_response store api p).networkPrompts) : ¬ q = emptyS := by
  unfold get_response at h
  by_cases hp : p = emptyS
  · simp [hp] at h
  · cases store with
    | none => simp [hp] at h
    | some t =>
      cases t with
      | none => simp [hp] at h
      | some tk =>
        simp [hp] at h
        rw [h]
        exact hp

/-- clientStep records exactly the network prompts of its one Response
Client call. -/
theorem clientStep_apiCalls_sub (env : Env) (p q : String)
    (h : q ∈ (clientStep env p).apiCalls) :
    q ∈ (get_response env.tokenStore env.api p).networkPrompts := by
  cases hgr : (get_response env.tokenStore env.api p).result <;>
    simpa [clientStep, hgr, baseOutcome] using h

theorem clientStep_api_ne_emptyS (env : Env) (p q : String)
    (h : q ∈ (clientStep env p).apiCalls) : ¬ q = emptyS :=
  get_response_network_ne_emptyS env.tokenStore env.api p q (clientStep_apiCalls_sub env p q h)

theorem ask_api_ne_emptyS (env : Env) (l : List String) (q : String)
    (h : q ∈ (MindFlow.ask env l).apiCalls) : ¬ q = emptyS := by
  cases hp : parseAskArgs l with
  | none => simp [MindFlow.ask, hp, argparseErrorOutcome, baseOutcome] at h
  | some a =>
    rw [MindFlow.ask, hp] at h
    exact clientStep_api_ne_emptyS env a.prompt q h

theorem diff_api_ne_emptyS (env : Env) (l : List String) (q : String)
    (h : q ∈ (MindFlow.diff env l).apiCalls) : ¬ q = emptyS := by
  cases hp : parseDiffArgs l with
  | none => simp [MindFlow.diff, hp, argparseErrorOutcome, baseOutcome] at h
  | some a =>
    rw [MindFlow.diff, hp] at h
    have h' : q ∈ (clientStep env (generate_diff_prompt env.gitDiff a.diffargs)).apiCalls := by
      cases hgr : (get_response env.tokenStore env.api
          (generate_diff_prompt env.gitDiff a.diffargs)).result <;>
        simpa [clientStep, hgr, baseOutcome] using h
    exact clientStep_api_ne_emptyS env _ q h'

theorem query_api_ne_emptyS (env : Env) (l : List String) (q : String)
    (h : q ∈ (MindFlow.query env l).apiCalls) : ¬ q = emptyS := by
  cases hp : parseQueryArgs l with
  | none => simp [MindFlow.query, hp, argparseErrorOutcome, baseOutcome] at h
  | some a =>
    rw [MindFlow.query, hp] at h
    exact clientStep_api_ne_emptyS env _ q h

theorem auth_apiCalls_nil (env : Env) (l : List String) :
    (MindFlow.auth env l).apiCalls = [] := by
  cases hp : parseAuthArgs l <;> simp [MindFlow.auth, hp, argparseErrorOutcome, baseOutcome]

theorem dunder_apiCalls_nil (env : Env) (s : String) :
    (dunderOutcome env s).apiCalls = [] := by
  unfold dunderOutcome
  split
  · rfl
  · split <;> rfl

/-- Every network prompt of a full invocation is non-empty. -/
theorem mindflow_api_ne_emptyS (env : Env) (argv : List String) (q : String)
    (h : q ∈ (mindflow env argv).apiCalls) : ¬ q = emptyS := by
  unfold mindflow at h
  split at h
  · simp [baseOutcome] at h
  · simp [baseOutcome] at h
  · split at h
    · unfold dispatchHandler at h
      split at h
      · rw [auth_apiCalls_nil] at h
        simp at h
      · split at h
        · exact ask_api_ne_emptyS env _ q h
        · split at h
          · exact diff_api_ne_emptyS env _ q h
          · split at h
            · exact query_api_ne_emptyS env _ q h
            · exact query_api_ne_emptyS env _ q h
    · split at h
      · rw [dunder_apiCalls_nil] at h
        simp at h
      · simp [baseOutcome] at h

/-- clientStep never touches the token store. -/
theorem clientStep_tokenStore (env : Env) (p : String) :
    (clientStep env p).tokenStore = env.tokenStore := by
  cases hgr : (get_response env.tokenStore env.api p).result <;>
    simp [clientStep, hgr, baseOutcome]

theorem ask_tokenStore (env : Env) (l : List String) :
    (MindFlow.ask env l).tokenStore = env.tokenStore := by
  cases hp : parseAskArgs l <;>
    simp [MindFlow.ask, hp, argparseErrorOutcome, baseOutcome, clientStep_tokenStore]

theorem diff_tokenStore (env : Env) (l : List String) :
    (MindFlow.diff env l).tokenStore = env.tokenStore := by
  cases hp : parseDiffArgs l with
  | none => simp [MindFlow.diff, hp, argparseErrorOutcome, baseOutcome]
  | some a =>
    rw [MindFlow.diff, hp]
    show (clientStep env (generate_diff_prompt env.gitDiff a.diffargs)).tokenStore = _
    exact clientStep_tokenStore env _

theorem query_tokenStore (env : Env) (l : List String) :
    (MindFlow.query env l).tokenStore = env.tokenStore := by
  cases hp : parseQueryArgs l <;>
    simp [MindFlow.query, hp, argparseErrorOutcome, baseOutcome, clientStep_tokenStore]

theorem auth_tokenStore_set (env : Env) (l : List String) (h : env.tokenStore ≠ none) :
    (MindFlow.auth env l).tokenStore ≠ none := by
  cases hp : parseAuthArgs l with
  | none => simpa [MindFlow.auth, hp, argparseErrorOutcome, baseOutcome] using h
  | some tok => simp [MindFlow.auth, hp, set_token, baseOutcome]

theorem dunder_tokenStore (env : Env) (s : String) :
    (dunderOutcome env s).tokenStore = env.tokenStore := by
  unfold dunderOutcome
  split
  · rfl
  · split <;> rfl

/-- One invocation never takes a set token store back to Unset. -/
theorem mindflow_tokenStore_preserved (env : Env) (argv : List String)
    (h : env.tokenStore ≠ none) : (mindflow env argv).tokenStore ≠ none := by
  unfold mindflow
  split
  · simpa [baseOutcome] using h
  · simpa [baseOutcome] using h
  · split
    · unfold dispatchHandler
      split
      · exact auth_tokenStore_set env _ h
      · split
        · rw [ask_tokenStore]
          exact h
        · split
          · rw [diff_tokenStore]
            exact h
          · split
            · rw [query_tokenStore]
              exact h
            · show (MindFlow.query env _).tokenStore ≠ none
              rw [query_tokenStore]
              exact h
    · split
      · rw [dunder_tokenStore]
        exact h
      · simpa [baseOutcome] using h

/-- Flag-free token lists are scanned as pure positionals, in order. -/
theorem scanSkipFlags_positional (args : List String)
    (h : ∀ a ∈ args, startsWithDash a = false) :
    scanSkipFlags args = some (args, false, false) := by
  induction args with
  | nil => rfl
  | cons a rest ih =>
    have ha := h a (by simp)
    have hr := ih (fun x hx => h x (by simp [hx]))
    simp [scanSkipFlags, hr, ha]

/-! The claim theorems. -/

/-- Claim C1 (code-bug evaluation): invoking ask with the skip-response flag
set still issues a Response Client call carrying the prompt and prints the
returned API response rather than the prompt, and diff with the flag set
likewise still calls the client — main.py parses skip_response but never
reads it, although the flag is documented in the source as generating the
prompt only. -/
theorem C1_skip_response_flag_ignored :
    (mindflow demoEnv [r"ask", r"What is 2+2?", r"-s"]).getResponseCalls =
      [r"What is 2+2?"] ∧
    (mindflow demoEnv [r"ask", r"What is 2+2?", r"-s"]).apiCalls =
      [r"What is 2+2?"] ∧
    (mindflow demoEnv [r"ask", r"What is 2+2?", r"-s"]).stdout =
      [r"response to: What is 2+2?"] ∧
    (mindflow demoEnv [r"diff", r"-s"]).getResponseCalls ≠ [] := by
  refine ⟨by decide, by decide, by decide, by decide⟩

/-- Claim C2, counterexample: the subcommand name under-under-str is not in
the known set, yet the invocation neither prints anything nor exits non-zero:
the hasattr test of line 129 accepts every attribute of the instance, and the
dispatched zero-argument call succeeds with its value discarded, so the
process silently exits 0. -/
theorem C2_counterexample :
    ((r"__str__") ∉ [r"diff", r"query", r"q", r"ask", r"auth"]) ∧
    (mindflow demoEnv [r"__str__"]).exit = ExitStatus.success ∧
    (mindflow demoEnv [r"__str__"]).stdout = [] ∧
    (mindflow demoEnv [r"__str__"]).stderr = [] := by decide

/-- Claim C2 (amended): for every subcommand name outside the known set
{diff, query, q, ask, auth} that argparse reads as the command positional
(any token that is not dash-initial, plus the bare dash) and that is not one
of the Python object attributes the hasattr dispatch also accepts, the
dispatcher prints the unrecognized-command message with the usage text,
exits with code 1, and makes no Response Client or network call. -/
theorem C2_unknown_command_usage (env : Env) (c : String) (rest : List String)
    (h1 : c ∉ handlerNames) (h2 : c ∉ pythonObjectAttrs)
    (h3 : startsWithDash c = false ∨ c = dashTok) :
    (mindflow env (c :: rest)).exit = ExitStatus.exited 1 ∧
    (mindflow env (c :: rest)).stdout = [unrecognizedMsg, MF_USAGE] ∧
    (mindflow env (c :: rest)).getResponseCalls = [] ∧
    (mindflow env (c :: rest)).apiCalls = [] := by
  have hq : ¬ (c = helpShort ∨ c = helpLong) := by
    rcases h3 with h3 | h3
    · rintro (rfl | rfl) <;> exact absurd h3 (by decide)
    · rw [h3]
      rintro (h | h) <;> exact absurd h (by decide)
  have hd : ¬ (startsWithDash c = true ∧ ¬ c = dashTok) := by
    rcases h3 with h3 | h3
    · intro hc
      rw [h3] at hc
      exact absurd hc.1 (by decide)
    · intro hc
      exact hc.2 h3
  have hp : parseCommand [c] = Except.ok c := by
    simp [parseCommand, hq, hd]
  simp [mindflow, hp, h1, h2, baseOutcome]

/-- Claim C2 witness: the amended theorem at an ordinary unknown name. -/
theorem C2_unknown_command_usage_witness :
    (mindflow demoEnv [r"frobnicate"]).exit = ExitStatus.exited 1 ∧
    (mindflow demoEnv [r"frobnicate"]).stdout = [unrecognizedMsg, MF_USAGE] ∧
    (mindflow demoEnv [r"frobnicate"]).getResponseCalls = [] ∧
    (mindflow demoEnv [r"frobnicate"]).apiCalls = [] :=
  C2_unknown_command_usage demoEnv (r"frobnicate") [] (by decide) (by decide)
    (by decide)

/-- Claim C3, counterexample: ask with an empty prompt issues a Response
Client call whose prompt argument is the empty string — main.py performs no
defensive check before calling get_response; the client itself then fails
without issuing a network request. -/
theorem C3_counterexample :
    (mindflow demoEnv [r"ask", r""]).getResponseCalls = [emptyS] ∧
    (mindflow demoEnv [r"ask", r""]).apiCalls = [] ∧
    (mindflow demoEnv [r"ask", r""]).exit =
      ExitStatus.uncaught (r"EmptyPromptError") := by decide

/-- Claim C3 (amended): the defensive emptiness check lives inside the
Response Client, not in the CLI — an empty prompt can reach the client, but
every prompt for which a network request is actually issued, on any
invocation, is non-empty. -/
theorem C3_network_prompts_nonempty (env : Env) (argv : List String) (q : String)
    (h : q ∈ (mindflow env argv).apiCalls) : ¬ q = emptyS :=
  mindflow_api_ne_emptyS env argv q h

/-- Claim C3 witness: a network prompt of a concrete run is non-empty. -/
theorem C3_network_prompts_nonempty_witness :
    ((r"hi") ∈ (mindflow demoEnv [r"ask", r"hi"]).apiCalls) ∧ ¬ (r"hi") = emptyS :=
  ⟨by decide, C3_network_prompts_nonempty demoEnv [r"ask", r"hi"] (r"hi") (by decide)⟩

/-- Claim C4: ask without the skip flag and with a token set makes exactly
one Response Client call, its prompt argument is the user-supplied string
verbatim, and the returned response text is printed. The prompt ranges over
the strings argparse reads as the positional (not dash-initial) and, because
the client returns no response on an empty prompt, over non-empty strings. -/
theorem C4_ask_calls_once_verbatim (env : Env) (p tok : String)
    (hp : startsWithDash p = false) (hne : ¬ p = emptyS)
    (htok : env.tokenStore = some (some tok)) :
    (mindflow env [r"ask", p]).getResponseCalls = [p] ∧
    (mindflow env [r"ask", p]).apiCalls = [p] ∧
    (mindflow env [r"ask", p]).stdout = [env.api p] ∧
    (mindflow env [r"ask", p]).exit = ExitStatus.success := by
  have hd : mindflow env [r"ask", p] = MindFlow.ask env [p] := rfl
  rw [hd]
  have hparse : parseAskArgs [p] =
      some { prompt := p, skip_response := false, skip_clipboard := false } := by
    simp [parseAskArgs, scanSkipFlags, hp]
  simp [MindFlow.ask, hparse, clientStep, get_response, hne, htok, baseOutcome]

/-- Claim C4 witness: the spec example prompt. -/
theorem C4_ask_calls_once_verbatim_witness :
    (mindflow demoEnv [r"ask", r"What is 2+2?"]).getResponseCalls =
      [r"What is 2+2?"] ∧
    (mindflow demoEnv [r"ask", r"What is 2+2?"]).apiCalls = [r"What is 2+2?"] ∧
    (mindflow demoEnv [r"ask", r"What is 2+2?"]).stdout =
      [demoEnv.api (r"What is 2+2?")] ∧
    (mindflow demoEnv [r"ask", r"What is 2+2?"]).exit = ExitStatus.success :=
  C4_ask_calls_once_verbatim demoEnv (r"What is 2+2?") (r"demo-token")
    (by decide) (by decide) rfl

/-- Claim C5: auth TOKEN1 then auth TOKEN2 leaves the token store holding
exactly TOKEN2 — the store holds at most one value by construction and the
second write overwrites the first. Tokens range over the strings argparse
reads as the positional (not dash-initial). -/
theorem C5_last_auth_wins (env : Env) (t1 t2 : String)
    (_h1 : startsWithDash t1 = false) (h2 : startsWithDash t2 = false) :
    runSeq env [[r"auth", t1], [r"auth", t2]] = some (some t2) := by
  have e1 : ∀ (e : Env) (t : String), startsWithDash t = false →
      (mindflow e [r"auth", t]).tokenStore = some (some t) := by
    intro e t ht
    have hd : mindflow e [r"auth", t] = MindFlow.auth e [t] := rfl
    rw [hd]
    simp [MindFlow.auth, parseAuthArgs, scanAuthArgs, ht, set_token, baseOutcome]
  have s1 : runSeq env [[r"auth", t1], [r"auth", t2]] =
      (mindflow { env with tokenStore := (mindflow env [r"auth", t1]).tokenStore }
        [r"auth", t2]).tokenStore := rfl
  rw [s1, e1 _ _ h2]

/-- Claim C5 witness: two concrete tokens. -/
theorem C5_last_auth_wins_witness :
    runSeq demoEnv [[r"auth", r"TOKEN1"], [r"auth", r"TOKEN2"]] =
      some (some (r"TOKEN2")) :=
  C5_last_auth_wins demoEnv (r"TOKEN1") (r"TOKEN2") (by decide) (by decide)

/-- Claim C6: once the token store is Set, no sequence of further invocations
of any subcommand takes it back to Unset — only auth writes the store, and
every write stores a value. -/
theorem C6_token_never_removed (env : Env) (argvs : List (List String))
    (v : Option String) (h : env.tokenStore = some v) : runSeq env argvs ≠ none := by
  induction argvs generalizing env v with
  | nil => simp [runSeq, h]
  | cons a rest ih =>
    have h2 : (mindflow env a).tokenStore ≠ none :=
      mindflow_tokenStore_preserved env a (by simp [h])
    obtain ⟨w, hw⟩ := Option.ne_none_iff_exists'.mp h2
    have hstep : runSeq env (a :: rest) =
        runSeq { env with tokenStore := (mindflow env a).tokenStore } rest := rfl
    rw [hstep]
    exact ih _ w (by simp [hw])

/-- Claim C6 witness: a set store survives an auth, an ask and a diff run. -/
theorem C6_token_never_removed_witness :
    runSeq demoEnv [[r"auth", r"T1"], [r"ask", r"hi"], [r"diff"]] ≠ none :=
  C6_token_never_removed demoEnv [[r"auth", r"T1"], [r"ask", r"hi"], [r"diff"]]
    (some (r"demo-token")) rfl

/-- Claim C7: invoking the q subcommand behaves identically to invoking the
query subcommand with the same remaining arguments — the whole invocation
outcomes are equal, since the alias body is a direct call to query, which
re-parses the same argument tail. -/
theorem C7_q_alias_of_query (env : Env) (rest : List String) :
    mindflow env ((r"q") :: rest) = mindflow env ((r"query") :: rest) := rfl

/-- Claim C8: diff with flag-free pass-through arguments hands exactly that
argument list, in order, to generate_diff_prompt, sends the generated prompt
to the Response Client, and prints the response (a token must be set for a
response to exist). -/
theorem C8_diff_passthrough (env : Env) (args : List String) (tok : String)
    (hargs : ∀ a ∈ args, startsWithDash a = false)
    (htok : env.tokenStore = some (some tok)) :
    (mindflow env ((r"diff") :: args)).diffPromptArgs = [args] ∧
    (mindflow env ((r"diff") :: args)).getResponseCalls =
      [generate_diff_prompt env.gitDiff args] ∧
    (mindflow env ((r"diff") :: args)).apiCalls =
      [generate_diff_prompt env.gitDiff args] ∧
    (mindflow env ((r"diff") :: args)).stdout =
      [env.api (generate_diff_prompt env.gitDiff args)] := by
  have hd : mindflow env ((r"diff") :: args) = MindFlow.diff env args := rfl
  rw [hd]
  have hparse : parseDiffArgs args =
      some { diffargs := args, skip_response := false, skip_clipboard := false } := by
    simp [parseDiffArgs, scanSkipFlags_positional args hargs]
  have hne := generate_diff_prompt_ne_emptyS env.gitDiff args
  simp [MindFlow.diff, hparse, clientStep, get_response, hne, htok, baseOutcome]

/-- Claim C8 witness: one concrete pass-through argument. -/
theorem C8_diff_passthrough_witness :
    (mindflow demoEnv [r"diff", r"HEAD~1"]).diffPromptArgs = [[r"HEAD~1"]] ∧
    (mindflow demoEnv [r"diff", r"HEAD~1"]).getResponseCalls =
      [generate_diff_prompt demoEnv.gitDiff [r"HEAD~1"]] ∧
    (mindflow demoEnv [r"diff", r"HEAD~1"]).apiCalls =
      [generate_diff_prompt demoEnv.gitDiff [r"HEAD~1"]] ∧
    (mindflow demoEnv [r"diff", r"HEAD~1"]).stdout =
      [demoEnv.api (generate_diff_prompt demoEnv.gitDiff [r"HEAD~1"])] :=
  C8_diff_passthrough demoEnv [r"HEAD~1"] (r"demo-token") (by decide) rfl

/-- Claim C9: auth with no token argument still calls set_token exactly once,
passing None — the optional positional defaults to None and the store write
is not skipped; the run succeeds. -/
theorem C9_auth_default_none (env : Env) :
    (mindflow env [r"auth"]).setTokenCalls = [none] ∧
    (mindflow env [r"auth"]).tokenStore = some none ∧
    (mindflow env [r"auth"]).exit = ExitStatus.success := by
  have hd : mindflow env [r"auth"] = MindFlow.auth env [] := rfl
  rw [hd]
  simp [MindFlow.auth, parseAuthArgs, scanAuthArgs, set_token, baseOutcome]

/-- Claim C10: invoking with no arguments at all exits with the argparse
code 2 for the missing required command positional, prints nothing to
stdout (in particular not the unrecognized-command message, whose branch
would exit 1), dispatches no handler, and makes no store or network call. -/
theorem C10_no_args_argparse_error (env : Env) :
    (mindflow env []).exit = ExitStatus.exited 2 ∧
    (mindflow env []).stdout = [] ∧
    (mindflow env []).getResponseCalls = [] ∧
    (mindflow env []).apiCalls = [] ∧
    (mindflow env []).setTokenCalls = [] ∧
    (mindflow env []).diffPromptArgs = [] :=
  ⟨rfl, rfl, rfl, rfl, rfl, rfl⟩

end Mindflow
